import Mathlib

/-!
Shallow embedding of the ai-agent-forge repository: the GraphSpec data model
(`agents_forge/agents_generation/config_schema.py`), the node registry and
generator (`node_types.py`, `generator.py`), the meta-agent
(`agents_forge/core_agent/`), and the backend service
(`backend/app/services/agent_service.py`).  External LLM / web-search calls are
oracle parameters; the langgraph execution engine, which is a third-party
dependency and not part of the repository sources, is modelled from the spec
where a claim depends on it (each such definition says so in its doc comment).
-/

/-- Chat messages (langchain SystemMessage / HumanMessage / AIMessage),
reduced to their role and content. -/
inductive Message
  | system (content : String)
  | human (content : String)
  | ai (content : String)
deriving DecidableEq

/-- Content accessor of a message (`.content` in the source). -/
def Message.content : Message → String
  | .system c => c
  | .human c => c
  | .ai c => c

/-- The `NextStep` enum of `core_agent/utils/helper_models.py`.  Note it has
four members, not three. -/
inductive NextStep
  | UPDATE_BLUEPRINT
  | ASK_FOLLOWUP
  | GENERATE_AGENT
  | EVALUATE_BLUEPRINT
deriving DecidableEq

/-- The string value of each `NextStep` member (it is a `str` enum). -/
def NextStep.value : NextStep → String
  | .UPDATE_BLUEPRINT => "update_blueprint"
  | .ASK_FOLLOWUP => "ask_followup"
  | .GENERATE_AGENT => "generate_agent"
  | .EVALUATE_BLUEPRINT => "evaluate_blueprint"

/-- `NodeConfig` of `config_schema.py`: id, type, objective, model_name,
temperature.  The float temperature is payload only (never computed on), so it
is carried as a rational. -/
structure NodeConfig where
  id : String
  type : String
  objective : String
  model_name : String
  temperature : Rat
deriving DecidableEq

/-- `EdgeConfig` of `config_schema.py`. -/
structure EdgeConfig where
  source : String
  target : String
deriving DecidableEq

/-- `AgentConfig` of `config_schema.py`: the full GraphSpec. -/
structure AgentConfig where
  agent_name : String
  description : String
  nodes : List NodeConfig
  edges : List EdgeConfig
deriving DecidableEq

/-- `AgentCreatorState` of `core_agent/utils/state.py`, exactly as declared
there: the blueprint field is spelled `agent_bleuprint` in the source. -/
structure AgentCreatorState where
  messages : List Message
  agent_bleuprint : String := ""
  agent_config : Option AgentConfig := none
  planned_step : Option NextStep := none
deriving DecidableEq

/-- The declared field names of `AgentCreatorState`, as written in
`core_agent/utils/state.py`. -/
def AgentCreatorState.fieldNames : List String :=
  ["messages", "agent_bleuprint", "agent_config", "planned_step"]

/-- Python-level errors that the embedded functions can raise. -/
inductive PyError
  | typeError (msg : String)
  | valueError (msg : String)
  | attributeError (name : String)
  | fileNotFoundError (path : String)
deriving DecidableEq

/-- The value of one attribute of `AgentCreatorState`. -/
inductive AttrVal
  | messagesVal (ms : List Message)
  | strVal (s : String)
  | configVal (c : Option AgentConfig)
  | stepVal (n : Option NextStep)
deriving DecidableEq

/-- Pydantic attribute access on `AgentCreatorState`: a declared field yields
its value, any other name raises `AttributeError` (pydantic `BaseModel`
semantics). -/
def AgentCreatorState.getattr (st : AgentCreatorState) (name : String) :
    Except PyError AttrVal :=
  if name = "messages" then Except.ok (AttrVal.messagesVal st.messages)
  else if name = "agent_bleuprint" then Except.ok (AttrVal.strVal st.agent_bleuprint)
  else if name = "agent_config" then Except.ok (AttrVal.configVal st.agent_config)
  else if name = "planned_step" then Except.ok (AttrVal.stepVal st.planned_step)
  else Except.error (PyError.attributeError name)

/-- One keyed entry of a StateDelta dict returned by a core-agent node
(`core_agent/utils/nodes.py` returns plain dicts). -/
inductive CoreUpdate
  | messages (ms : List Message)
  | agent_blueprint (s : String)
  | agent_config (c : AgentConfig)
  | planned_step (n : NextStep)
deriving DecidableEq

/-- The dict key each `CoreUpdate` entry is written under in `nodes.py`. -/
def CoreUpdate.key : CoreUpdate → String
  | .messages _ => "messages"
  | .agent_blueprint _ => "agent_blueprint"
  | .agent_config _ => "agent_config"
  | .planned_step _ => "planned_step"

/-- `step_planner` of `core_agent/utils/nodes.py`.  Its first statement (the
log line) and its prompt both read `state.agent_blueprint`; the structured LLM
call (codomain `NextStep`) is the oracle.  On success it returns the delta
`{planned_step: ..., messages: [AIMessage("Next step: " + ...)]}`. -/
def step_planner (planOracle : String → List Message → NextStep)
    (state : AgentCreatorState) : Except PyError (List CoreUpdate) :=
  match state.getattr "agent_blueprint" with
  | Except.error e => Except.error e
  | Except.ok v =>
    let blueprint := match v with | AttrVal.strVal s => s | _ => ""
    let next := planOracle blueprint state.messages
    Except.ok [CoreUpdate.planned_step next,
               CoreUpdate.messages [Message.ai ("Next step: " ++ next.value)]]

/-- `route_to_step` of `nodes.py`: returns `state.planned_step` (a declared
field, so no attribute error). -/
def route_to_step (state : AgentCreatorState) : Option NextStep :=
  state.planned_step

/-- `update_blueprint` of `nodes.py`.  Its prompt reads
`state.agent_blueprint`; the LLM call is the oracle; on success it returns the
delta `{agent_blueprint: response, messages: [AIMessage("Updated blueprint: " +
response)]}`. -/
def update_blueprint (llmOracle : String → List Message → String)
    (state : AgentCreatorState) : Except PyError (List CoreUpdate) :=
  match state.getattr "agent_blueprint" with
  | Except.error e => Except.error e
  | Except.ok v =>
    let blueprint := match v with | AttrVal.strVal s => s | _ => ""
    let response := llmOracle blueprint state.messages
    Except.ok [CoreUpdate.agent_blueprint response,
               CoreUpdate.messages [Message.ai ("Updated blueprint: " ++ response)]]

/-- The three conditional-edge targets wired for `step_planner` in
`core_agent/agent.py` (`add_conditional_edges` with the set
`{UPDATE_BLUEPRINT, ASK_FOLLOWUP, GENERATE_AGENT}`). -/
def wiredTargets : List NextStep :=
  [NextStep.UPDATE_BLUEPRINT, NextStep.ASK_FOLLOWUP, NextStep.GENERATE_AGENT]

/-- The members of `NextStep`, i.e. the codomain of the planner's structured
output `PlannerResponse.next_step` in `nodes.py`. -/
def plannerOutputValues : List NextStep :=
  [NextStep.UPDATE_BLUEPRINT, NextStep.ASK_FOLLOWUP, NextStep.GENERATE_AGENT,
   NextStep.EVALUATE_BLUEPRINT]

/-- Engine-level error kinds of the spec's taxonomy. -/
inductive EngineError
  | routingError
  | recursionExceeded
deriving DecidableEq

/-- Modelled from the spec: router resolution (spec section 4.4).  The engine
is the external langgraph dependency, absent from the repository sources; per
the spec a resolver result outside the declared candidate set is rejected with
a RoutingError, never silently replaced by a default path. -/
def branchResolve (candidates : List NextStep) (v : NextStep) :
    Except EngineError NextStep :=
  if v ∈ candidates then Except.ok v else Except.error EngineError.routingError

/-- The vertices of the meta-agent graph compiled by `generate_core_agent`
(`core_agent/agent.py`), plus the START and END sentinels. -/
inductive Vertex
  | START
  | step_planner
  | update_blueprint
  | ask_followup
  | generate_agent
  | END
deriving DecidableEq

/-- The edge list built by `generate_core_agent` in `core_agent/agent.py`:
START -> step_planner, the conditional edges step_planner -> each wired
target, the back edge update_blueprint -> step_planner, and the terminal edges
ask_followup -> END and generate_agent -> END. -/
def metaEdges : List (Vertex × Vertex) :=
  [(Vertex.START, Vertex.step_planner),
   (Vertex.step_planner, Vertex.update_blueprint),
   (Vertex.step_planner, Vertex.ask_followup),
   (Vertex.step_planner, Vertex.generate_agent),
   (Vertex.update_blueprint, Vertex.step_planner),
   (Vertex.ask_followup, Vertex.END),
   (Vertex.generate_agent, Vertex.END)]

/-- `metaEdges` without the revise -> plan edge. -/
def metaEdgesNoBack : List (Vertex × Vertex) :=
  metaEdges.erase (Vertex.update_blueprint, Vertex.step_planner)

/-- Static successors of a vertex in the wired meta-agent graph. -/
def metaSuccessors (v : Vertex) : List Vertex :=
  (metaEdges.filter (fun e => decide (e.1 = v))).map (fun e => e.2)

/-- One-step edge relation of an edge list. -/
def stepRel (es : List (Vertex × Vertex)) (a b : Vertex) : Prop :=
  (a, b) ∈ es

/-- An edge list is acyclic when no vertex reaches itself through a nonempty
path. -/
def EdgeListAcyclic (es : List (Vertex × Vertex)) : Prop :=
  ∀ v, ¬ Relation.TransGen (stepRel es) v v

/-- A topological rank for the meta-agent graph once the revise -> plan back
edge is removed. -/
def vertexRank : Vertex → Nat
  | Vertex.START => 0
  | Vertex.step_planner => 1
  | Vertex.update_blueprint => 2
  | Vertex.ask_followup => 2
  | Vertex.generate_agent => 2
  | Vertex.END => 3

/-- Modelled from the spec: one frontier transition of the execution engine
(spec section 4.3) on the meta-agent graph, with a fixed planner resolution
`plan` (the stub resolver of the claims).  The engine itself is the external
langgraph dependency, absent from the repository sources; routing away from
`step_planner` goes through `branchResolve` against the wired targets. -/
def routeFrom (plan : NextStep) : Vertex → Except EngineError Vertex
  | Vertex.START => Except.ok Vertex.step_planner
  | Vertex.step_planner =>
    match branchResolve wiredTargets plan with
    | Except.ok NextStep.UPDATE_BLUEPRINT => Except.ok Vertex.update_blueprint
    | Except.ok NextStep.ASK_FOLLOWUP => Except.ok Vertex.ask_followup
    | Except.ok NextStep.GENERATE_AGENT => Except.ok Vertex.generate_agent
    | _ => Except.error EngineError.routingError
  | Vertex.update_blueprint => Except.ok Vertex.step_planner
  | Vertex.ask_followup => Except.ok Vertex.END
  | Vertex.generate_agent => Except.ok Vertex.END
  | Vertex.END => Except.ok Vertex.END

/-- Outcome of an engine run: normal completion, abort at the recursion cap,
or a routing rejection, each carrying the number of supersteps executed. -/
inductive RunResult
  | ok (steps : Nat)
  | recursionExceeded (steps : Nat)
  | routingError (steps : Nat)
deriving DecidableEq

/-- Modelled from the spec: the engine superstep loop with a recursion cap
(spec section 4.3).  `fuel` is the remaining superstep budget, `steps` the
count of supersteps already executed; reaching END completes the run, and an
exhausted budget with work remaining aborts with RecursionExceededError. -/
def engineLoop (plan : NextStep) (fuel steps : Nat) (v : Vertex) : RunResult :=
  if v = Vertex.END then RunResult.ok steps
  else
    match fuel with
    | 0 => RunResult.recursionExceeded steps
    | f + 1 =>
      match routeFrom plan v with
      | Except.error _ => RunResult.routingError steps
      | Except.ok v2 => engineLoop plan f (steps + 1) v2

/-- A full meta-agent run under resolution `plan` with recursion cap `cap`
(the committed cap is 25: the `recursion_limit` in
`backend/app/services/agent_service.py` and the langgraph default). -/
def engineRun (plan : NextStep) (cap : Nat) : RunResult :=
  engineLoop plan cap 0 Vertex.START

/-- `MAX_MESSAGES = 4` of `agents_generation/node_types.py` (the service module
imports the same bound). -/
def MAX_MESSAGES : Nat := 4

/-- The trailing window `state["messages"][-MAX_MESSAGES:]` taken by
`create_llm_node` when the history exceeds `MAX_MESSAGES`, otherwise the whole
history. -/
def lastWindow (msgs : List Message) : List Message :=
  if msgs.length > MAX_MESSAGES then msgs.drop (msgs.length - MAX_MESSAGES)
  else msgs

/-- One keyed entry of a StateDelta dict returned by a generated-agent node.
The execution-state module `agents_generation/state.py` is absent from the
repository sources; per the spec (section 3) the ExecutionState carries an
append-only message history plus workflow-specific fields. -/
inductive StateUpdate
  | messages (ms : List Message)
  | agent_instructions (s : String)
deriving DecidableEq

/-- `create_llm_node` of `node_types.py`: the closure it returns, applied to a
state's message history.  The external ChatOpenAI completion is the `oracle`
parameter; the second component of the result is the list of completion calls
issued, each recorded as the message list sent.  The closure takes the trailing
`MAX_MESSAGES` window, prepends the objective as a system message when the
objective is a nonempty string (Python truthiness of `system_prompt`), invokes
the model once, and returns `{messages: [AIMessage(response.content)]}`. -/
def create_llm_node (config : NodeConfig) (oracle : List Message → String)
    (stateMessages : List Message) : List StateUpdate × List (List Message) :=
  let limited := lastWindow stateMessages
  let messagesWithSystem :=
    if config.objective = "" then limited
    else Message.system config.objective :: limited
  let response := oracle messagesWithSystem
  ([StateUpdate.messages [Message.ai response]], [messagesWithSystem])

/-- An executable node closure, as produced by the registry in
`node_types.py`: `create_llm_node` or `create_web_search_node` bound to its
configuration. -/
inductive NodeFn
  | llm_node (config : NodeConfig)
  | web_search_node (config : NodeConfig)
deriving DecidableEq

/-- `create_node` of `node_types.py`: dispatch on the type tag; `llm` and
`web_search` yield the bound closures, anything else raises
`ValueError("Unknown node type: ... Supported types: ...")`. -/
def create_node (node_type : String) (config : NodeConfig) :
    Except PyError NodeFn :=
  if node_type = "llm" then Except.ok (NodeFn.llm_node config)
  else if node_type = "web_search" then Except.ok (NodeFn.web_search_node config)
  else Except.error (PyError.valueError
    ("Unknown node type: " ++ node_type ++ ". Supported types: [llm, web_search]"))

/-- The TypeError raised by CPython when `await` is applied to a plain
function object. -/
def awaitTypeErrorMsg : String :=
  "object function cannot be used in await expression"

/-- `generator.py` line `node_function = await create_node(node_type,
node_config)`: `create_node` is a synchronous `def`, so the value being
awaited is a plain function object and the `await` raises TypeError. -/
def awaitValue (f : NodeFn) : Except PyError NodeFn :=
  match f with
  | _ => Except.error (PyError.typeError awaitTypeErrorMsg)

/-- The node-construction loop of `generate_agent_from_config`
(`generator.py`): for each node config, call `create_node` (any ValueError it
raises propagates) and `await` the returned value. -/
def buildNodes : List NodeConfig → Except PyError (List (String × NodeFn))
  | [] => Except.ok []
  | nc :: rest =>
    match create_node nc.type nc with
    | Except.error e => Except.error e
    | Except.ok f =>
      match awaitValue f with
      | Except.error e => Except.error e
      | Except.ok f2 =>
        match buildNodes rest with
        | Except.error e => Except.error e
        | Except.ok tail => Except.ok ((nc.id, f2) :: tail)

/-- The node ids declared by a config. -/
def declaredIds (config : AgentConfig) : List String :=
  config.nodes.map (fun n => n.id)

/-- An edge endpoint is valid when it is the START or END sentinel or a
declared node id. -/
def validEndpoint (config : AgentConfig) (s : String) : Bool :=
  s = "START" || s = "END" || (declaredIds config).contains s

/-- A compiled agent graph: node closures keyed by id plus the edge pairs. -/
structure CompiledAgent where
  nodes : List (String × NodeFn)
  edges : List (String × String)
deriving DecidableEq

/-- Modelled from the spec: the compile step (spec section 4.1, check (b)),
performed by the external langgraph `StateGraph.compile`, absent from the
repository sources: every edge endpoint must be START, END, or a declared node
id, otherwise compilation fails with a configuration validation error before
any node executes. -/
def compileGraph (config : AgentConfig) (fns : List (String × NodeFn)) :
    Except PyError CompiledAgent :=
  match config.edges.find? (fun e =>
      !(validEndpoint config e.source && validEndpoint config e.target)) with
  | some e => Except.error (PyError.valueError
      ("Found edge with unknown node: " ++ e.source ++ " -> " ++ e.target))
  | none => Except.ok
      { nodes := fns,
        edges := config.edges.map (fun e => (e.source, e.target)) }

/-- The argument actually handed to `generate_agent_from_config`: the
signature expects a file path, but the backend service and the CLI pass the
`AgentConfig` object itself. -/
inductive ConfigArg
  | path (p : String)
  | config (c : AgentConfig)

/-- `generate_agent_from_config` of `generator.py`.  `fs` models the
filesystem: the parsed, schema-valid `AgentConfig` a path's JSON yields, if
any (JSON decoding and pydantic validation of well-formed files are elided).
`open(config_path)` on a non-path argument raises TypeError; a missing file
raises FileNotFoundError; then the node loop (`buildNodes`) runs, edges are
added, and the graph is compiled. -/
def generate_agent_from_config (fs : String → Option AgentConfig)
    (arg : ConfigArg) : Except PyError CompiledAgent :=
  match arg with
  | ConfigArg.config _ =>
    Except.error (PyError.typeError
      "expected str, bytes or os.PathLike object, not AgentConfig")
  | ConfigArg.path p =>
    match fs p with
    | none => Except.error (PyError.fileNotFoundError p)
    | some config =>
      match buildNodes config.nodes with
      | Except.error e => Except.error e
      | Except.ok fns => compileGraph config fns

/-- A value stored in `AgentService.agents`.  `generate_agent_from_core`
stores the compiled agent object directly (`self.agents[agent_id] = agent`),
while the sibling `generate_agent` method stores a dict
`{"agent": ..., "config": ...}` to which a `"messages"` list is added
lazily. -/
inductive StoredAgent
  | bare (a : CompiledAgent)
  | entry (a : CompiledAgent) (config : AgentConfig) (messages : List Message)
deriving DecidableEq

/-- The in-memory agent store and per-agent state dicts of `AgentService`. -/
structure ServiceState where
  agents : List (String × StoredAgent)
  agent_states : List (String × List Message)
deriving DecidableEq

/-- `self.agents[agent_id]` lookup. -/
def lookupAgent (l : List (String × StoredAgent)) (k : String) :
    Option StoredAgent :=
  (l.find? (fun p => decide (p.1 = k))).map (fun p => p.2)

/-- Replace the stored entry of one agent id. -/
def setAgent (l : List (String × StoredAgent)) (k : String) (v : StoredAgent) :
    List (String × StoredAgent) :=
  l.map (fun p => if p.1 = k then (k, v) else p)

/-- The storage step of `generate_agent_from_core`: the compiled agent is
stored bare under the fresh id, and an empty message list is put in
`agent_states`. -/
def store_generated_agent (svc : ServiceState) (agent_id : String)
    (agent : CompiledAgent) : ServiceState :=
  { agents := svc.agents ++ [(agent_id, StoredAgent.bare agent)],
    agent_states := svc.agent_states ++ [(agent_id, [])] }

/-- Result dict of `generate_agent_from_core`: either
`{"error": ...}` (no finalized config) or `{"agent_id": ..., "message": ...}`. -/
inductive GenResult
  | errorDict (msg : String)
  | success (agent_id : String) (msg : String)
deriving DecidableEq

/-- The `agent_config` slot of the core agent's checkpointed state
(`state.values.get("agent_config")`). -/
structure CoreStateValues where
  agent_config : Option AgentConfig
deriving DecidableEq

/-- `generate_agent_from_core` of `agent_service.py`: with no finalized config
it returns the structured error dict; otherwise it calls
`generate_agent_from_config(agent_config)` — passing the `AgentConfig` object
where the generator expects a file path — and on success would store the agent
bare and report the fresh id.  An exception from the generator propagates
(there is no try/except around it) and nothing is stored. -/
def generate_agent_from_core (fs : String → Option AgentConfig)
    (newId : String) (core : CoreStateValues) (svc : ServiceState) :
    Except PyError GenResult × ServiceState :=
  match core.agent_config with
  | none =>
    (Except.ok (GenResult.errorDict
      "No agent configuration available. Please complete the conversation with the core agent first."),
     svc)
  | some config =>
    match generate_agent_from_config fs (ConfigArg.config config) with
    | Except.error e => (Except.error e, svc)
    | Except.ok agent =>
      (Except.ok (GenResult.success newId
        "Agent generated successfully! You can now communicate with it."),
       store_generated_agent svc newId agent)

/-- The history rewrite one `send_message_to_agent` run performs on the stored
message list (`agent_service.py`): append the user message, truncate to the
last `MAX_MESSAGES` entries when the list exceeds that bound, and append the
response received from the agent. -/
def runOnHistory (history : List Message) (userMsg response : Message) :
    List Message :=
  let h1 := history ++ [userMsg]
  let h2 := if h1.length > MAX_MESSAGES then h1.drop (h1.length - MAX_MESSAGES)
            else h1
  h2 ++ [response]

/-- Result dict of `send_message_to_agent`:
`{"message": ..., "agent_id": ...}`. -/
inductive SendResult
  | messageResponse (message : String) (agent_id : String)
deriving DecidableEq

/-- `send_message_to_agent` of `agent_service.py`.  An unknown id raises
`ValueError("Agent not found: ...")`; a stored value that is the compiled
agent itself (the shape `generate_agent_from_core` stores) fails on
`agent_data["agent"]` with TypeError, since a compiled graph is not
subscriptable; for the dict shape the history is updated per `runOnHistory`
around the external `ainvoke` call (the `invoke` oracle, which receives only
the new user message, exactly as the source passes it). -/
def send_message_to_agent (invoke : CompiledAgent → Message → Message)
    (svc : ServiceState) (agent_id message : String) :
    Except PyError SendResult × ServiceState :=
  match lookupAgent svc.agents agent_id with
  | none =>
    (Except.error (PyError.valueError ("Agent not found: " ++ agent_id)), svc)
  | some (StoredAgent.bare _) =>
    (Except.error (PyError.typeError
      "CompiledStateGraph object is not subscriptable"), svc)
  | some (StoredAgent.entry a config msgs) =>
    let user := Message.human message
    let response := invoke a user
    let newMsgs := runOnHistory msgs user response
    (Except.ok (SendResult.messageResponse response.content agent_id),
     { svc with agents :=
        setAgent svc.agents agent_id (StoredAgent.entry a config newMsgs) })

/-- The stored message history of one agent id, when it is stored in the dict
shape. -/
def storedMessages (svc : ServiceState) (agent_id : String) :
    Option (List Message) :=
  match lookupAgent svc.agents agent_id with
  | some (StoredAgent.entry _ _ msgs) => some msgs
  | _ => none

/-- A typical initial meta-agent state: one human message, defaults
elsewhere. -/
def c1State : AgentCreatorState :=
  { messages := [Message.human "Build me a research agent"] }

/-- A state in which the planner chose the fourth `NextStep` member. -/
def c2State : AgentCreatorState :=
  { messages := [Message.human "hi"],
    planned_step := some NextStep.EVALUATE_BLUEPRINT }

/-- A state in which the planner chose a wired step. -/
def c2wState : AgentCreatorState :=
  { messages := [Message.human "hi"],
    planned_step := some NextStep.UPDATE_BLUEPRINT }

/-- The retrieval node of the spec's concrete scenario (section 8). -/
def searchNode : NodeConfig :=
  { id := "search", type := "web_search",
    objective := "Find the weather in Oslo", model_name := "gpt-4o-mini",
    temperature := 0 }

/-- The generative node of the spec's concrete scenario. -/
def answerNode : NodeConfig :=
  { id := "answer", type := "llm", objective := "Answer the question",
    model_name := "gpt-4o-mini", temperature := 0 }

/-- A node whose type tag resolves in no registry entry. -/
def bogusNode : NodeConfig :=
  { id := "mystery", type := "bogus", objective := "Do something",
    model_name := "gpt-4o-mini", temperature := 0 }

/-- The spec's invalid-edge scenario: `search -> missing` references an
undeclared node id. -/
def c4Config : AgentConfig :=
  { agent_name := "weather", description := "demo",
    nodes := [searchNode, answerNode],
    edges := [{ source := "START", target := "search" },
              { source := "search", target := "missing" },
              { source := "answer", target := "END" }] }

/-- Filesystem for the invalid-edge scenario. -/
def c4fs : String → Option AgentConfig :=
  fun p => if p = "c4.json" then some c4Config else none

/-- A config whose unknown-typed node is preceded by a known-typed node. -/
def c5Config : AgentConfig :=
  { agent_name := "mixed", description := "demo",
    nodes := [answerNode, bogusNode],
    edges := [{ source := "START", target := "answer" },
              { source := "answer", target := "mystery" },
              { source := "mystery", target := "END" }] }

/-- Filesystem for the mixed-nodes scenario. -/
def c5fs : String → Option AgentConfig :=
  fun p => if p = "c5.json" then some c5Config else none

/-- A fully valid GraphSpec: the spec's two-node scenario with edges
START -> search -> answer -> END. -/
def validConfig : AgentConfig :=
  { agent_name := "oslo weather", description := "demo",
    nodes := [searchNode, answerNode],
    edges := [{ source := "START", target := "search" },
              { source := "search", target := "answer" },
              { source := "answer", target := "END" }] }

/-- Node config used to instantiate the generative-node claim. -/
def c6Config : NodeConfig :=
  { id := "summary", type := "llm", objective := "Summarise the findings",
    model_name := "gpt-4o-mini", temperature := 0 }

/-- An empty agent service. -/
def svc0 : ServiceState := { agents := [], agent_states := [] }

/-- A filesystem with no files. -/
def emptyFs : String → Option AgentConfig := fun _ => none

/-- A compiled agent value for store-shape scenarios. -/
def demoAgent : CompiledAgent := { nodes := [], edges := [] }

/-- An invocation oracle that echoes the user message. -/
def echoInvoke : CompiledAgent → Message → Message :=
  fun _ m => Message.ai ("echo: " ++ m.content)

/-- The service after `generate_agent_from_core`s storage step ran for one
agent. -/
def c8svc : ServiceState := store_generated_agent svc0 "core-made" demoAgent

/-- The service holding one agent in the dict shape the `generate_agent`
method stores. -/
def c8svcEntry : ServiceState :=
  { agents := [("dict-made", StoredAgent.entry demoAgent validConfig [])],
    agent_states := [] }

/-- A stored history already at the `MAX_MESSAGES` bound. -/
def c9History : List Message :=
  [Message.ai "m1", Message.ai "m2", Message.ai "m3", Message.ai "m4"]

/-- The service holding one dict-shape agent whose history is at the bound. -/
def c9svc : ServiceState :=
  { agents := [("a", StoredAgent.entry demoAgent validConfig c9History)],
    agent_states := [] }

theorem lastWindow_length_le (msgs : List Message) :
    (lastWindow msgs).length ≤ MAX_MESSAGES := by
  unfold lastWindow
  split
  · rw [List.length_drop]
    omega
  · omega

theorem lastWindow_isSuffix (msgs : List Message) : lastWindow msgs <:+ msgs := by
  unfold lastWindow
  split
  · exact List.drop_suffix _ _
  · exact List.suffix_refl _

theorem isSuffix_append_same {l1 l2 t : List Message} (h : l1 <:+ l2) :
    l1 ++ t <:+ l2 ++ t := by
  obtain ⟨s, hs⟩ := h
  exact ⟨s, by rw [← List.append_assoc, hs]⟩

theorem runOnHistory_isSuffix (h : List Message) (u r : Message) :
    runOnHistory h u r <:+ (h ++ [u]) ++ [r] := by
  simp only [runOnHistory]
  apply isSuffix_append_same
  split
  · exact List.drop_suffix _ _
  · exact List.suffix_refl _

theorem stubLoop_aux (fuel : Nat) : ∀ steps v,
    v = Vertex.START ∨ v = Vertex.step_planner ∨ v = Vertex.update_blueprint →
    engineLoop NextStep.UPDATE_BLUEPRINT fuel steps v =
      RunResult.recursionExceeded (steps + fuel) := by
  induction fuel with
  | zero =>
    intro steps v hv
    rcases hv with h | h | h <;> subst h <;> rfl
  | succ n ih =>
    intro steps v hv
    rcases hv with h | h | h <;> subst h
    · show engineLoop NextStep.UPDATE_BLUEPRINT n (steps + 1) Vertex.step_planner = _
      rw [ih (steps + 1) _ (Or.inr (Or.inl rfl))]
      congr 1
      omega
    · show engineLoop NextStep.UPDATE_BLUEPRINT n (steps + 1) Vertex.update_blueprint = _
      rw [ih (steps + 1) _ (Or.inr (Or.inr rfl))]
      congr 1
      omega
    · show engineLoop NextStep.UPDATE_BLUEPRINT n (steps + 1) Vertex.step_planner = _
      rw [ih (steps + 1) _ (Or.inr (Or.inl rfl))]
      congr 1
      omega

theorem metaNoBack_rank_lt :
    ∀ p ∈ metaEdgesNoBack, vertexRank p.1 < vertexRank p.2 := by decide

theorem metaNoBack_transGen_rank {a b : Vertex}
    (h : Relation.TransGen (stepRel metaEdgesNoBack) a b) :
    vertexRank a < vertexRank b := by
  induction h with
  | single h1 => exact metaNoBack_rank_lt _ h1
  | tail _ h2 ih => exact lt_trans ih (metaNoBack_rank_lt _ h2)

/-- C1: claimed, `update_blueprint` reads the blueprint from the state's
blueprint field and writes that same field, which `step_planner` then reads on
the shared `AgentCreatorState`.  In the source the two nodes do agree on the
attribute name `agent_blueprint`, but `AgentCreatorState` declares the field
as `agent_bleuprint` (misspelled), so the name the nodes use is not a field of
the state: reading it raises `AttributeError` and the written delta key matches
no declared field.  Evaluated here at a concrete initial state. -/
theorem C1_blueprint_field_bug :
    CoreUpdate.key (CoreUpdate.agent_blueprint "bp") = "agent_blueprint" ∧
    "agent_blueprint" ∉ AgentCreatorState.fieldNames ∧
    "agent_bleuprint" ∈ AgentCreatorState.fieldNames ∧
    update_blueprint (fun _ _ => "bp") c1State =
      Except.error (PyError.attributeError "agent_blueprint") ∧
    step_planner (fun _ _ => NextStep.UPDATE_BLUEPRINT) c1State =
      Except.error (PyError.attributeError "agent_blueprint") := by
  refine ⟨rfl, by decide, by decide, rfl, rfl⟩

/-- C2 counterexample: `route_to_step` just forwards `planned_step`, whose
type `NextStep` has the fourth member `EVALUATE_BLUEPRINT`; at a state where
the planner chose it — a value the planner's structured output admits — the
resolver returns an id outside the three wired successor ids. -/
theorem C2_resolver_escapes_wired_set :
    route_to_step c2State = some NextStep.EVALUATE_BLUEPRINT ∧
    NextStep.EVALUATE_BLUEPRINT ∉ wiredTargets ∧
    NextStep.EVALUATE_BLUEPRINT ∈ plannerOutputValues := by decide

/-- C2 amended: `route_to_step` returns the state's `planned_step`, which
ranges over the four `NextStep` members; each of the three wired members is
accepted by the engine's branch resolution, and the fourth,
`EVALUATE_BLUEPRINT`, is outside the wired successor set and is rejected with
a RoutingError (engine rejection modelled from the spec) instead of being
silently replaced by a default path. -/
theorem C2_router_amended (st : AgentCreatorState) (v : NextStep)
    (h : route_to_step st = some v) :
    (v ∈ wiredTargets ∧ branchResolve wiredTargets v = Except.ok v) ∨
    (v = NextStep.EVALUATE_BLUEPRINT ∧
      branchResolve wiredTargets v = Except.error EngineError.routingError) := by
  cases v
  · exact Or.inl ⟨by decide, rfl⟩
  · exact Or.inl ⟨by decide, rfl⟩
  · exact Or.inl ⟨by decide, rfl⟩
  · exact Or.inr ⟨rfl, rfl⟩

theorem C2_router_amended_witness :
    (NextStep.UPDATE_BLUEPRINT ∈ wiredTargets ∧
      branchResolve wiredTargets NextStep.UPDATE_BLUEPRINT =
        Except.ok NextStep.UPDATE_BLUEPRINT) ∨
    (NextStep.UPDATE_BLUEPRINT = NextStep.EVALUATE_BLUEPRINT ∧
      branchResolve wiredTargets NextStep.UPDATE_BLUEPRINT =
        Except.error EngineError.routingError) :=
  C2_router_amended c2wState NextStep.UPDATE_BLUEPRINT rfl

/-- C3: a run of the meta-agent graph that exceeds the recursion/superstep cap
aborts with RecursionExceededError; under the stub resolution that always
picks revise (`UPDATE_BLUEPRINT`), the abort happens after exactly `cap`
supersteps, never earlier — and a run that finalizes early completes in 3
supersteps without any abort, well under the committed cap of 25.  The engine
loop is modelled from the spec (section 4.3); the cap 25 is the
`recursion_limit` committed in `agent_service.py` and the engine default. -/
theorem C3_recursion_cap :
    (∀ cap, engineRun NextStep.UPDATE_BLUEPRINT cap =
      RunResult.recursionExceeded cap) ∧
    engineRun NextStep.UPDATE_BLUEPRINT 25 = RunResult.recursionExceeded 25 ∧
    engineRun NextStep.GENERATE_AGENT 25 = RunResult.ok 3 ∧
    (3 : Nat) < 25 := by
  have hstub : ∀ cap, engineRun NextStep.UPDATE_BLUEPRINT cap =
      RunResult.recursionExceeded cap := by
    intro cap
    have h := stubLoop_aux cap 0 Vertex.START (Or.inl rfl)
    simpa [engineRun] using h
  exact ⟨hstub, hstub 25, rfl, by omega⟩

/-- C4: claimed, a GraphSpec with an edge endpoint that is no declared node id
is rejected by `generate_agent_from_config` with a configuration validation
error before any node executes.  In the source, the node-construction loop
`await`s the value returned by the synchronous `create_node`, which raises
TypeError at the first node of any config — so the run fails before the edge
phase with an error that is not a validation error and names no edge; called
as the service calls it (passing the `AgentConfig` object where a file path is
expected), it fails even earlier inside `open`.  The modelled compile-time
endpoint check (`compileGraph`, spec section 4.1) would reject the bad edge,
but is never reached. -/
theorem C4_edge_validation_never_reached :
    (∃ e ∈ c4Config.edges, validEndpoint c4Config e.target = false) ∧
    generate_agent_from_config c4fs (ConfigArg.path "c4.json") =
      Except.error (PyError.typeError awaitTypeErrorMsg) ∧
    (∀ m, generate_agent_from_config c4fs (ConfigArg.path "c4.json") ≠
      Except.error (PyError.valueError m)) ∧
    generate_agent_from_config c4fs (ConfigArg.config c4Config) =
      Except.error (PyError.typeError
        "expected str, bytes or os.PathLike object, not AgentConfig") ∧
    compileGraph c4Config [] = Except.error (PyError.valueError
      "Found edge with unknown node: search -> missing") := by
  refine ⟨⟨{ source := "search", target := "missing" }, by decide, by decide⟩,
    rfl, ?_, rfl, rfl⟩
  intro m hm
  rw [show generate_agent_from_config c4fs (ConfigArg.path "c4.json") =
    Except.error (PyError.typeError awaitTypeErrorMsg) from rfl] at hm
  simp at hm

/-- C5: claimed, every NodeSpec with an unregistered type tag makes
`create_node` raise an error naming the supported types during
`generate_agent_from_config`, before compilation.  `create_node` itself does
exactly that, and returns an executable node closure for each registered tag;
when the unknown-typed node comes first the error also surfaces during
generation.  But when any known-typed node precedes it, generation fails
instead with the TypeError from `await`ing the synchronous `create_node`
result, and the supported-types error is never raised. -/
theorem C5_unknown_type_error_preempted :
    create_node "bogus" bogusNode = Except.error (PyError.valueError
      "Unknown node type: bogus. Supported types: [llm, web_search]") ∧
    create_node "llm" answerNode = Except.ok (NodeFn.llm_node answerNode) ∧
    create_node "web_search" searchNode =
      Except.ok (NodeFn.web_search_node searchNode) ∧
    buildNodes [bogusNode] = Except.error (PyError.valueError
      "Unknown node type: bogus. Supported types: [llm, web_search]") ∧
    generate_agent_from_config c5fs (ConfigArg.path "c5.json") =
      Except.error (PyError.typeError awaitTypeErrorMsg) := by
  exact ⟨rfl, rfl, rfl, rfl, rfl⟩

/-- C6: the node produced by `create_llm_node` issues exactly one completion
call, whose leading system instruction is the node's objective and whose
remaining context is the trailing window of at most `MAX_MESSAGES` (4)
messages of the state's history, and it returns a delta that appends exactly
one message and nothing else. -/
theorem C6_llm_node_single_call (config : NodeConfig)
    (oracle : List Message → String) (msgs : List Message)
    (h : config.objective ≠ "") :
    (create_llm_node config oracle msgs).2 =
      [Message.system config.objective :: lastWindow msgs] ∧
    (lastWindow msgs).length ≤ MAX_MESSAGES ∧
    lastWindow msgs <:+ msgs ∧
    (create_llm_node config oracle msgs).1 =
      [StateUpdate.messages [Message.ai
        (oracle (Message.system config.objective :: lastWindow msgs))]] := by
  refine ⟨?_, lastWindow_length_le msgs, lastWindow_isSuffix msgs, ?_⟩ <;>
    simp [create_llm_node, h]

theorem C6_llm_node_single_call_witness :
    (create_llm_node c6Config (fun _ => "done") [Message.human "go"]).2 =
      [Message.system c6Config.objective :: lastWindow [Message.human "go"]] ∧
    (lastWindow [Message.human "go"]).length ≤ MAX_MESSAGES ∧
    lastWindow [Message.human "go"] <:+ [Message.human "go"] ∧
    (create_llm_node c6Config (fun _ => "done") [Message.human "go"]).1 =
      [StateUpdate.messages [Message.ai ((fun _ => "done")
        (Message.system c6Config.objective ::
          lastWindow [Message.human "go"]))]] :=
  C6_llm_node_single_call c6Config (fun _ => "done") [Message.human "go"]
    (by decide)

/-- C7: claimed, `generate_agent_from_core` returns a structured error when no
finalized configuration exists (which it does), and otherwise returns the new
agent id for an agent built from the stored configuration.  In the source it
passes the `AgentConfig` object to `generate_agent_from_config`, whose
signature expects a file path; `open` on the object raises TypeError, which is
uncaught, so even a fully valid finalized configuration never yields an
`agent_id` and nothing is stored. -/
theorem C7_generate_from_core_never_succeeds :
    (generate_agent_from_core emptyFs "agent-1"
        { agent_config := none } svc0).1 =
      Except.ok (GenResult.errorDict
        "No agent configuration available. Please complete the conversation with the core agent first.") ∧
    (generate_agent_from_core emptyFs "agent-1"
        { agent_config := some validConfig } svc0).1 =
      Except.error (PyError.typeError
        "expected str, bytes or os.PathLike object, not AgentConfig") ∧
    (generate_agent_from_core emptyFs "agent-1"
        { agent_config := some validConfig } svc0).2 = svc0 := by
  exact ⟨rfl, rfl, rfl⟩

/-- C8: claimed, `send_message_to_agent` returns a message for stored agents —
in particular ones created by `generate_agent_from_core` — and a not-found
error otherwise.  `generate_agent_from_core` stores the compiled agent bare
(`self.agents[agent_id] = agent`), while `send_message_to_agent` reads
`self.agents[agent_id]["agent"]`, the dict shape its sibling `generate_agent`
method stores: on a bare-stored agent the subscript raises TypeError instead of
returning a message.  The unknown-id path does raise the not-found ValueError,
and a dict-shape agent does get a message response. -/
theorem C8_storage_shape_mismatch :
    (send_message_to_agent echoInvoke c8svc "core-made" "hello").1 =
      Except.error (PyError.typeError
        "CompiledStateGraph object is not subscriptable") ∧
    (send_message_to_agent echoInvoke c8svc "missing" "hello").1 =
      Except.error (PyError.valueError "Agent not found: missing") ∧
    (send_message_to_agent echoInvoke c8svcEntry "dict-made" "hello").1 =
      Except.ok (SendResult.messageResponse "echo: hello" "dict-made") := by
  exact ⟨rfl, rfl, rfl⟩

/-- C9 counterexample: starting from a stored history already at the
`MAX_MESSAGES` (4) bound, two sequential runs on the same agent id do not
produce the concatenation of the old history with both runs' appended
messages: the service truncates the stored list to its last 4 entries before
each invocation. -/
theorem C9_history_not_concatenated :
    storedMessages
      ((send_message_to_agent echoInvoke
        ((send_message_to_agent echoInvoke c9svc "a" "u1").2) "a" "u2").2) "a" ≠
    some (c9History ++
      [Message.human "u1", Message.ai "echo: u1",
       Message.human "u2", Message.ai "echo: u2"]) := by decide

/-- C9 amended: each run appends its user message and response to the stored
history, but first truncates the stored list (with the new user message) to
its last `MAX_MESSAGES` (4) entries whenever it exceeds that bound; hence the
history after two sequential runs is a suffix of the claimed concatenation,
with equality exactly while no truncation triggers (for a pair of runs, a
starting history of at most one message). -/
theorem C9_concatenation_bounded (h : List Message) (u1 r1 u2 r2 : Message) :
    runOnHistory (runOnHistory h u1 r1) u2 r2 <:+ h ++ [u1, r1, u2, r2] ∧
    (h.length ≤ 1 →
      runOnHistory (runOnHistory h u1 r1) u2 r2 = h ++ [u1, r1, u2, r2]) := by
  constructor
  · have s1 : runOnHistory h u1 r1 <:+ (h ++ [u1]) ++ [r1] :=
      runOnHistory_isSuffix h u1 r1
    have s2 : runOnHistory (runOnHistory h u1 r1) u2 r2 <:+
        ((runOnHistory h u1 r1) ++ [u2]) ++ [r2] :=
      runOnHistory_isSuffix _ u2 r2
    have s3 : ((runOnHistory h u1 r1) ++ [u2]) ++ [r2] <:+
        ((((h ++ [u1]) ++ [r1]) ++ [u2]) ++ [r2]) :=
      isSuffix_append_same (isSuffix_append_same s1)
    have s4 := s2.trans s3
    simpa [List.append_assoc] using s4
  · intro hlen
    have e1 : runOnHistory h u1 r1 = (h ++ [u1]) ++ [r1] := by
      simp only [runOnHistory]
      rw [if_neg (by simp [MAX_MESSAGES]; omega)]
    rw [e1]
    simp only [runOnHistory]
    rw [if_neg (by simp [MAX_MESSAGES]; omega)]
    simp

theorem engineLoop_end (plan : NextStep) (fuel steps : Nat) :
    engineLoop plan fuel steps Vertex.END = RunResult.ok steps := by
  cases fuel <;> rfl

/-- C10: in the meta-agent graph wired by `generate_core_agent`, removing the
revise -> plan edge leaves an acyclic graph while the full graph has a cycle —
so revise -> plan is the single back edge — and `ask_followup` (clarify) and
`generate_agent` (finalize) each have END as their sole successor, so in the
modelled engine any run that executes either of them completes at the next
transition. -/
theorem C10_single_back_edge :
    EdgeListAcyclic metaEdgesNoBack ∧
    ¬ EdgeListAcyclic metaEdges ∧
    metaSuccessors Vertex.ask_followup = [Vertex.END] ∧
    metaSuccessors Vertex.generate_agent = [Vertex.END] ∧
    (∀ plan fuel steps,
      engineLoop plan (fuel + 1) steps Vertex.ask_followup =
        RunResult.ok (steps + 1) ∧
      engineLoop plan (fuel + 1) steps Vertex.generate_agent =
        RunResult.ok (steps + 1)) := by
  refine ⟨?_, ?_, by decide, by decide, ?_⟩
  · intro v hv
    exact absurd (metaNoBack_transGen_rank hv) (lt_irrefl _)
  · intro hac
    exact hac Vertex.step_planner
      (Relation.TransGen.head
        (show (Vertex.step_planner, Vertex.update_blueprint) ∈ metaEdges by
          decide)
        (Relation.TransGen.single
          (show (Vertex.update_blueprint, Vertex.step_planner) ∈ metaEdges by
            decide)))
  · intro plan fuel steps
    constructor
    · show engineLoop plan fuel (steps + 1) Vertex.END = RunResult.ok (steps + 1)
      exact engineLoop_end plan fuel (steps + 1)
    · show engineLoop plan fuel (steps + 1) Vertex.END = RunResult.ok (steps + 1)
      exact engineLoop_end plan fuel (steps + 1)
